import Mathlib

/-
  Verification development for the whatsapp-engine repository.

  Sources embedded here:
  - src/index.js            : engine variant with a DB-backed credential store
  - src/unnamed/part_000    : engine variant with file-based sessions and the
                              full HTTP surface (send, check, messages,
                              conversations, mark-read, disconnect)
  - src/unnamed/part_001    : dbSessionStore (MySQL-backed credential store)

  JavaScript values are embedded shallowly: objects become structures, the
  JS Map becomes an insertion-ordered association list, JSON response bodies
  become lists of key/value pairs, fallible awaits become Except, and the
  falsy-coalescing idiom (x || d) becomes explicit helper functions.
-/

namespace WAEngine

/-- A JSON scalar as used in the response bodies and webhook payloads of the
engine (only strings, booleans and numbers occur in the source). -/
inductive JValue where
  | s (v : String)
  | b (v : Bool)
  | n (v : Nat)
  deriving DecidableEq

/-- An HTTP response: status code plus a JSON object body, embedding the
pairs passed to res.status(...).json(...) in the source (res.json without
an explicit status defaults to 200, as in Express). -/
structure HttpResponse where
  status : Nat
  body : List (String × JValue)
  deriving DecidableEq

/-- An outbound webhook event as built by sendWebhook in both engine
variants: the event_type string and the data object. -/
structure WebhookEvent where
  event_type : String
  data : List (String × JValue)
  deriving DecidableEq

/-- JS falsy-coalescing on an optional string: models the source idiom
(x || d), where both undefined and the empty string are falsy. -/
def jsOrStr (o : Option String) (d : String) : String :=
  match o with
  | some v => if v = "" then d else v
  | none => d

/-- JS falsy-coalescing on an optional number: models the source idiom
(x || d), where both undefined and 0 are falsy. -/
def jsOrNat (o : Option Nat) (d : Nat) : Nat :=
  match o with
  | some v => if v = 0 then d else v
  | none => d

/-- JS falsiness of an optional string as used in the guard
(!number || !message): undefined and the empty string are falsy. -/
def jsFalsyStr : Option String → Bool
  | none => true
  | some v => v == ""

/-- Lookup in an insertion-ordered association list.  This embeds both
JS Map.prototype.get (src engines) and the SELECT on the UNIQUE session_id
column (part_001): the first (hence, on a unique-key table, only) matching
row is returned. -/
def mapGet {β : Type} : List (String × β) → String → Option β
  | [], _ => none
  | e :: rest, k => if e.1 = k then some e.2 else mapGet rest k

/-- Update-or-append on an insertion-ordered association list.  This embeds
both JS Map.prototype.set (an existing key keeps its position, a new key is
appended at the end, preserving first-seen iteration order) and the SQL
INSERT ... ON DUPLICATE KEY UPDATE upsert of part_001. -/
def mapSet {β : Type} : List (String × β) → String → β → List (String × β)
  | [], k, v => [(k, v)]
  | e :: rest, k, v => if e.1 = k then (k, v) :: rest else e :: mapSet rest k v

/-- saveSession from src/unnamed/part_001 lines 24-32: an upsert keyed on
the UNIQUE session_id column (INSERT ... ON DUPLICATE KEY UPDATE).  The
table is embedded as an association list from session_id to the serialized
data blob. -/
def saveSession (db : List (String × String)) (sessionId : String) (data : String) :
    List (String × String) :=
  mapSet db sessionId data

/-- getSession from src/unnamed/part_001 lines 34-47: SELECT data ... WHERE
session_id = ?; an empty result set yields null (none), not an error.  (The
JSON.parse of a blob previously produced by JSON.stringify cannot fail, so
the catch branch returning null is unreachable in this model.) -/
def getSession (db : List (String × String)) (sessionId : String) : Option String :=
  mapGet db sessionId

/-- deleteSession from src/unnamed/part_001 lines 49-54: DELETE ... WHERE
session_id = ?. -/
def deleteSession (db : List (String × String)) (sessionId : String) :
    List (String × String) :=
  db.filter (fun r => r.1 != sessionId)

/-- In-memory connection state of the engine, as held on the WhatsAppEngine
instance: this.status, this.qrCode, plus the multiset of reconnect timers
currently scheduled via setTimeout and not yet fired (recorded as the list
of their delays in milliseconds). -/
structure EngineState where
  status : String
  qrCode : Option String
  reconnectTimers : List Nat
  deriving DecidableEq

/-- DisconnectReason.loggedOut from the Baileys library (an external
collaborator): the numeric status code 401 that marks an explicit user
logout. -/
def DisconnectReasonLoggedOut : Nat := 401

/-- A connection.update stream event as destructured by both engine
variants: the connection field, the optional
lastDisconnect.error.output.statusCode chain (none embeds any undefined
link in the optional chain), and the optional raw qr payload. -/
structure ConnectionUpdate where
  connection : Option String
  lastDisconnectStatusCode : Option Nat
  qr : Option String
  deriving DecidableEq

/-- Stand-in for the external qrcode.toDataURL collaborator, a pure
data-format conversion (out of scope for the engine itself); no claim
depends on its output value. -/
def qrToDataURL (raw : String) : String := "data-url-of:" ++ raw

/-- The connection.update handler shared by src/index.js lines 155-177 and
src/unnamed/part_000 lines 312-336: a qr payload sets AwaitingScan state; a
close event schedules one 3000 ms reconnect timer via setTimeout whenever
the disconnect status code differs from DisconnectReason.loggedOut (there
is no pending-timer guard in the source), then clears status and qr; an
open event sets connected state. -/
def onConnectionUpdate (s : EngineState) (u : ConnectionUpdate) : EngineState :=
  let s1 :=
    match u.qr with
    | some raw => { s with qrCode := some (qrToDataURL raw), status := "qr" }
    | none => s
  if u.connection = some "open" then
    { s1 with status := "connected", qrCode := none }
  else if u.connection = some "close" then
    let s2 :=
      if u.lastDisconnectStatusCode ≠ some DisconnectReasonLoggedOut then
        { s1 with reconnectTimers := s1.reconnectTimers ++ [3000] }
      else s1
    { s2 with status := "disconnected", qrCode := none }
  else s1

/-- Engine state at construction time: status disconnected, no qr, no
pending timers. -/
def initEngineState : EngineState := ⟨"disconnected", none, []⟩

/-- A connection-closed event whose cause (status code 428, connection
terminated) is not an explicit user logout. -/
def closeEvent428 : ConnectionUpdate := ⟨some "close", some 428, none⟩

/-- Count of non-logout close events in a stream of connection updates. -/
def nonLogoutCloseCount (us : List ConnectionUpdate) : Nat :=
  (us.filter (fun u =>
    u.connection == some "close" &&
    u.lastDisconnectStatusCode != some DisconnectReasonLoggedOut)).length

/-- Observable outcome of one POST /disconnect request: whether logout was
issued to the active session, the in-memory state afterwards, whether local
session artifacts were deleted, the delays of any connect() calls scheduled
via setTimeout by the handler, and the HTTP response. -/
structure DisconnectOutcome where
  logoutCalled : Bool
  stateAfter : EngineState
  sessionArtifactsDeleted : Bool
  scheduledConnectDelays : List Nat
  response : HttpResponse
  deriving DecidableEq

/-- cleanup as shared by both variants for the in-memory fields: status
becomes disconnected and the qr artifact is cleared (pending timers are not
touched by cleanup). -/
def cleanupState (s : EngineState) : EngineState :=
  { s with status := "disconnected", qrCode := none }

/-- The POST /disconnect handler of src/index.js lines 64-77 with cleanup
from lines 185-190: while connected it awaits logout and runs cleanup, but
schedules no new connect() call; a logout throw reaches the catch block and
answers 500 without cleanup.  sockPresent embeds this.sock being non-null. -/
def disconnectHandler_index (sockPresent : Bool) (s : EngineState)
    (logoutFails : Bool) : DisconnectOutcome :=
  if sockPresent && s.status == "connected" then
    if logoutFails then
      ⟨true, s, false, [],
        ⟨500, [("success", JValue.b false), ("error", JValue.s "Disconnect failed")]⟩⟩
    else
      ⟨true, cleanupState s, false, [],
        ⟨200, [("success", JValue.b true), ("message", JValue.s "Disconnected")]⟩⟩
  else
    ⟨false, s, false, [],
      ⟨200, [("success", JValue.b false), ("message", JValue.s "Already disconnected")]⟩⟩

/-- The POST /disconnect handler of src/unnamed/part_000 lines 66-87 with
cleanup from lines 427-435: while connected it awaits logout, runs cleanup
(which also removes the local session directory) and schedules one
connect() call after a 1000 ms delay; a logout throw reaches the catch
block, which also cleans up, schedules the 1000 ms reconnect and answers
success. -/
def disconnectHandler_p0 (sockPresent : Bool) (s : EngineState)
    (logoutFails : Bool) : DisconnectOutcome :=
  if sockPresent && s.status == "connected" then
    if logoutFails then
      ⟨true, cleanupState s, true, [1000],
        ⟨200, [("success", JValue.b true), ("message", JValue.s "Disconnected")]⟩⟩
    else
      ⟨true, cleanupState s, true, [1000],
        ⟨200, [("success", JValue.b true),
               ("message", JValue.s "Disconnected successfully")]⟩⟩
  else
    ⟨false, s, false, [],
      ⟨200, [("success", JValue.b false), ("error", JValue.s "Not connected to WhatsApp")]⟩⟩

/-- Outcome of the one axios.post call inside sendWebhook: either an HTTP
response with a status code, or a network-level failure (unreachable host,
timeout). -/
inductive AxiosOutcome where
  | ok (status : Nat)
  | networkError (msg : String)
  deriving DecidableEq

/-- Observable behaviour of one sendWebhook invocation: how many HTTP POST
attempts were made, whether a delivery failure was logged, and what (if
anything) was thrown to the caller. -/
structure WebhookAttemptResult where
  attempts : Nat
  loggedFailure : Bool
  thrownToCaller : Option String
  deriving DecidableEq

/-- The axios timeout option of sendWebhook in src/unnamed/part_000
line 461. -/
def webhookTimeoutMs_p0 : Nat := 10000

/-- The axios timeout option of sendWebhook in src/index.js line 206. -/
def webhookTimeoutMs_index : Nat := 8000

/-- sendWebhook from src/unnamed/part_000 lines 442-488: one axios.post
with validateStatus accepting every status below 500, an explicit throw for
any resolved status at or above 400, and a catch block that logs and
swallows every failure, so nothing is rethrown to the caller. -/
def sendWebhook_p0 (outcome : AxiosOutcome) : WebhookAttemptResult :=
  let axiosResult : Except String Nat :=
    match outcome with
    | .ok st => if st < 500 then Except.ok st else Except.error ("HTTP error " ++ toString st)
    | .networkError m => Except.error m
  let tryBody : Except String Unit :=
    match axiosResult with
    | .ok st => if 400 ≤ st then Except.error ("HTTP " ++ toString st) else Except.ok ()
    | .error e => Except.error e
  match tryBody with
  | .ok _ => ⟨1, false, none⟩
  | .error _ => ⟨1, true, none⟩

/-- sendWebhook from src/index.js lines 197-211: one axios.post with the
default validateStatus (only 2xx resolves), and a catch block that logs and
swallows every failure. -/
def sendWebhook_index (outcome : AxiosOutcome) : WebhookAttemptResult :=
  let axiosResult : Except String Unit :=
    match outcome with
    | .ok st =>
      if 200 ≤ st ∧ st < 300 then Except.ok ()
      else Except.error ("HTTP error " ++ toString st)
    | .networkError m => Except.error m
  match axiosResult with
  | .ok _ => ⟨1, false, none⟩
  | .error _ => ⟨1, true, none⟩

/-- A delivery outcome the spec classifies as a failure: HTTP status at or
above 400, or a network failure. -/
def isDeliveryFailure : AxiosOutcome → Bool
  | .ok st => 400 ≤ st
  | .networkError _ => true

/-- A stored message record as built by the messages.upsert handler of
src/unnamed/part_000 lines 354-360 (field from of the source is written
from_ because from is a reserved word). -/
structure MessageData where
  id : String
  from_ : String
  message : String
  timestamp : Nat
  fromMe : Bool
  deriving DecidableEq

/-- The per-peer buffer step of the messages.upsert handler,
src/unnamed/part_000 lines 367-372: push the record, then shift (drop the
oldest record) once the length exceeds 50. -/
def appendMessage (buf : List MessageData) (m : MessageData) : List MessageData :=
  let pushed := buf ++ [m]
  if 50 < pushed.length then pushed.tail else pushed

/-- JS Array.prototype.slice with a single start argument: a negative
start counts from the end (clamped at 0), a non-negative start is clamped
at the length. -/
def jsSlice {α : Type} (xs : List α) (start : Int) : List α :=
  if start < 0 then xs.drop (max ((xs.length : Int) + start) 0).toNat
  else xs.drop (min start (xs.length : Int)).toNat

/-- The read step of the GET /messages/:number handler,
src/unnamed/part_000 line 198: storedMessages.slice(-limit). -/
def recentMessages (buf : List MessageData) (limit : Nat) : List MessageData :=
  jsSlice buf (-(limit : Int))

/-- A concrete message record family used for counterexample inputs. -/
def mkMsgN (i : Nat) : MessageData := ⟨"id", "peer", "m", i + 1, false⟩

/-- Serialization of the full auth state passed to saveSession by the
creds.update handler of src/index.js lines 146-153: JSON.stringify of the
object holding the current creds and all keys of the live socket. -/
def mkAuthBlob (creds keys : String) : String :=
  "serialized(creds=" ++ creds ++ ";keys=" ++ keys ++ ")"

/-- The creds.update handler of src/index.js lines 146-153 in isolation:
it builds the full auth state from the live socket (current creds plus
getAll() of the key store), awaits saveSession under the fixed id default,
then logs one success line.  The handler has no try/catch, so its output
is the list of log lines it produced together with the propagated result
of the awaited save. -/
def credsUpdateHandler (creds keys : String)
    (save : String → String → Except String Unit) :
    List String × Except String Unit :=
  match save "default" (mkAuthBlob creds keys) with
  | .ok _ => (["WhatsApp session updated in DB"], Except.ok ())
  | .error e => ([], Except.error e)

/-- A protocol stream event as consumed by the src/index.js engine; a
credsUpdate event carries the creds and keys the live socket holds at the
moment the handler reads them. -/
inductive StreamEvent where
  | credsUpdate (creds keys : String)
  | connectionUpdate (u : ConnectionUpdate)
  | otherEvent
  deriving DecidableEq

/-- Combined engine state: in-memory connection state plus the credential
store table. -/
structure EngineFull where
  conn : EngineState
  db : List (String × String)
  deriving DecidableEq

/-- Sequential processing of one stream event (spec section 5: stream
events are processed strictly in arrival order, and a credentials write is
awaited to completion before the next event is processed): a credsUpdate
persists the full blob via the saveSession upsert under the fixed id
default, a connection update drives the connection state machine. -/
def processEvent (s : EngineFull) : StreamEvent → EngineFull
  | .credsUpdate c k => { s with db := saveSession s.db "default" (mkAuthBlob c k) }
  | .connectionUpdate u => { s with conn := onConnectionUpdate s.conn u }
  | .otherEvent => s

/-- Sequential processing of a whole stream of events. -/
def processEvents (s : EngineFull) (es : List StreamEvent) : EngineFull :=
  es.foldl processEvent s

/-- The creds and keys carried by the last credsUpdate event of a stream,
if any. -/
def lastCreds : List StreamEvent → Option (String × String)
  | [] => none
  | e :: es =>
    match lastCreds es with
    | some p => some p
    | none =>
      match e with
      | .credsUpdate c k => some (c, k)
      | _ => none

/-- One entry of the array resolved by the onWhatsApp lookup of the Baileys
client: whether the number exists on the network and its canonical jid. -/
structure WaEntry where
  exists_ : Bool
  jid : String
  deriving DecidableEq

/-- The POST /send handler of src/index.js lines 79-109 (the
src/unnamed/part_000 handler at lines 89-138 is identical up to splitting
the invalid-number case into two distinct 400 messages).  Inputs: the
current status, the optional body fields, the clock value, the resolved
onWhatsApp lookup (error embeds a thrown lookup) and the sendMessage
operation (returning the new message key id).  Output: the HTTP response
and the list of webhook events handed to sendWebhook. -/
def sendHandler (status : String) (number message : Option String) (now : Nat)
    (onWhatsApp : Except Unit (List WaEntry))
    (sendMessage : String → String → Except Unit String) :
    HttpResponse × List WebhookEvent :=
  if status ≠ "connected" then
    (⟨400, [("error", JValue.s "WhatsApp not connected")]⟩, [])
  else if jsFalsyStr number || jsFalsyStr message then
    (⟨400, [("error", JValue.s "Number and message required")]⟩, [])
  else
    match onWhatsApp with
    | .error _ => (⟨500, [("error", JValue.s "Failed to send")]⟩, [])
    | .ok results =>
      match results.head? with
      | none => (⟨400, [("error", JValue.s "Invalid number")]⟩, [])
      | some r =>
        if r.exists_ = false then
          (⟨400, [("error", JValue.s "Invalid number")]⟩, [])
        else
          match sendMessage r.jid (message.getD "") with
          | .error _ => (⟨500, [("error", JValue.s "Failed to send")]⟩, [])
          | .ok mid =>
            (⟨200, [("success", JValue.b true), ("messageId", JValue.s mid)]⟩,
             [⟨"message_sent",
               [("phone_number", JValue.s (number.getD "")),
                ("message_id", JValue.s mid),
                ("message_content", JValue.s (message.getD "")),
                ("timestamp", JValue.n now)]⟩])

/-- The GET /check/:number handler of src/unnamed/part_000 lines 140-167:
400 when not connected; otherwise the resolved lookup yields a 200 body
(exists false with the invalid-format message on an empty result set,
else the first result), and only a thrown lookup reaches the catch block
answering 500. -/
def checkHandler (status : String) (number : String)
    (onWhatsApp : Except Unit (List WaEntry)) : HttpResponse :=
  if status ≠ "connected" then
    ⟨400, [("error", JValue.s "WhatsApp not connected")]⟩
  else
    match onWhatsApp with
    | .error _ => ⟨500, [("error", JValue.s "Failed to check number")]⟩
    | .ok results =>
      match results.head? with
      | none => ⟨200, [("exists", JValue.b false),
                       ("message", JValue.s "Invalid number format")]⟩
      | some r =>
        ⟨200, [("exists", JValue.b r.exists_),
               ("number", JValue.s number),
               ("message", JValue.s (if r.exists_ then "Number exists on WhatsApp"
                                     else "Number not found on WhatsApp"))]⟩

/-- Replace the first occurrence of pat in the character list by repl
(identity when pat does not occur). -/
def replaceFirstAux (pat repl : List Char) : List Char → List Char
  | [] => []
  | c :: rest =>
    if pat.isPrefixOf (c :: rest) then repl ++ (c :: rest).drop pat.length
    else c :: replaceFirstAux pat repl rest

/-- JS String.prototype.replace with a string pattern: replaces only the
first occurrence. -/
def replaceFirst (s pat repl : String) : String :=
  String.mk (replaceFirstAux pat.toList repl.toList s.toList)

/-- The display-number derivation used in src/unnamed/part_000 lines
345-347 and 224-226: strip the individual-chat and group suffix markers
from a jid. -/
def stripJidSuffixes (jid : String) : String :=
  replaceFirst (replaceFirst jid "@s.whatsapp.net" "") "@g.us" ""

/-- JS String.prototype.includes on the group marker,
src/unnamed/part_000 line 227. -/
def containsSubAux (pat : List Char) : List Char → Bool
  | [] => pat.isEmpty
  | c :: rest => pat.isPrefixOf (c :: rest) || containsSubAux pat rest

/-- Whether a jid carries the group-suffix marker:
jid.includes of the group domain. -/
def jidIsGroup (jid : String) : Bool :=
  containsSubAux "@g.us".toList jid.toList

/-- One element of m.messages as destructured by the messages.upsert
handler of src/unnamed/part_000 lines 341-360: the key fields, the two
possible plain-text bodies (message.conversation and
message.extendedTextMessage.text) and the optional timestamp. -/
structure UpsertMessage where
  keyRemoteJid : String
  keyId : String
  keyFromMe : Option Bool
  conversation : Option String
  extendedText : Option String
  messageTimestamp : Option Nat
  deriving DecidableEq

/-- A messages.upsert stream payload: the messages array and the upsert
type. -/
structure UpsertEvent where
  messages : List UpsertMessage
  type_ : String
  deriving DecidableEq

/-- The message record derivation of src/unnamed/part_000 lines 348-360:
display text is the plain conversation body, else the extended text body,
else the fixed placeholder (JS falsy chaining); the timestamp falls back
to Date.now(); fromMe falls back to false. -/
def mkMessageData (message : UpsertMessage) (now : Nat) : MessageData :=
  ⟨message.keyId,
   stripJidSuffixes message.keyRemoteJid,
   jsOrStr message.conversation (jsOrStr message.extendedText "[Media/Other]"),
   jsOrNat message.messageTimestamp now,
   message.keyFromMe.getD false⟩

/-- The message_received webhook event built at src/unnamed/part_000
lines 385-390. -/
def mkReceivedWebhook (message : UpsertMessage) (now : Nat) : WebhookEvent :=
  ⟨"message_received",
   [("phone_number", JValue.s (stripJidSuffixes message.keyRemoteJid)),
    ("message_id", JValue.s message.keyId),
    ("message_content",
      JValue.s (jsOrStr message.conversation
        (jsOrStr message.extendedText "[Media/Other]"))),
    ("timestamp", JValue.n (jsOrNat message.messageTimestamp now))]⟩

/-- The two archive maps held on the engine instance: this.messages
(capped per-peer buffers) and this.conversations (uncapped per-peer
lists), both keyed by the full jid. -/
structure ArchiveState where
  messages : List (String × List MessageData)
  conversations : List (String × List MessageData)
  deriving DecidableEq

/-- The messages.upsert handler of src/unnamed/part_000 lines 341-395:
only the first element of the messages array is handled and only for a
notify upsert; the derived record is stored in the capped messages buffer
and the uncapped conversations list under the full jid, broadcast to push
subscribers as new-message, and handed to sendWebhook as message_received
exactly when its fromMe flag is false.  Output: the new archive state, the
list of broadcast records, and the list of webhook events. -/
def messagesUpsertHandler (st : ArchiveState) (ev : UpsertEvent) (now : Nat) :
    ArchiveState × List MessageData × List WebhookEvent :=
  match ev.messages.head? with
  | none => (st, [], [])
  | some message =>
    if ev.type_ = "notify" then
      let jid := message.keyRemoteJid
      let md := mkMessageData message now
      let buf := (mapGet st.messages jid).getD []
      let msgs2 := mapSet st.messages jid (appendMessage buf md)
      let cbuf := (mapGet st.conversations jid).getD []
      let convs2 := mapSet st.conversations jid (cbuf ++ [md])
      (⟨msgs2, convs2⟩, [md],
       if md.fromMe then [] else [mkReceivedWebhook message now])
    else (st, [], [])

/-- A conversation summary as built by the GET /conversations handler of
src/unnamed/part_000 lines 230-242. -/
structure ConvSummary where
  id : String
  number : String
  name : String
  isGroup : Bool
  unreadCount : Nat
  lastMessage : String
  lastMessageTime : Nat
  lastMessageFromMe : Bool
  deriving DecidableEq

/-- One summary entry of src/unnamed/part_000 lines 230-242: the display
number with suffixes stripped doubles as the name, the last stored record
supplies the preview fields with JS falsy fallbacks. -/
def mkConvSummary (now : Nat) (jid : String) (msgs : List MessageData) :
    ConvSummary :=
  ⟨jid, stripJidSuffixes jid, stripJidSuffixes jid, false, 0,
   (match msgs.getLast? with
    | some lm => if lm.message = "" then "No messages" else lm.message
    | none => "No messages"),
   (match msgs.getLast? with
    | some lm => if lm.timestamp = 0 then now else lm.timestamp
    | none => now),
   (match msgs.getLast? with
    | some lm => lm.fromMe
    | none => false)⟩

/-- The loop of the GET /conversations handler, src/unnamed/part_000 lines
218-245: iterate the conversations map entries in insertion order, stop as
soon as count reaches the limit, skip entries whose jid carries the group
marker, and push a summary (incrementing count) for each individual
entry. -/
def buildConversations (entries : List (String × List MessageData))
    (limit count now : Nat) : List ConvSummary :=
  match entries with
  | [] => []
  | (jid, msgs) :: rest =>
    if limit ≤ count then []
    else if jidIsGroup jid then buildConversations rest limit count now
    else mkConvSummary now jid msgs :: buildConversations rest limit (count + 1) now

theorem mapGet_mapSet_self {β : Type} (m : List (String × β)) (k : String) (v : β) :
    mapGet (mapSet m k v) k = some v := by
  induction m with
  | nil => simp [mapGet, mapSet]
  | cons e rest ih =>
    by_cases h : e.1 = k
    · simp [mapSet, mapGet, h]
    · simp [mapSet, mapGet, h, ih]

theorem mapGet_mapSet_other {β : Type} (m : List (String × β)) (k j : String) (v : β)
    (h : j ≠ k) : mapGet (mapSet m k v) j = mapGet m j := by
  have hkj : ¬ (k = j) := fun hc => h hc.symm
  induction m with
  | nil =>
    show (if k = j then some v else mapGet [] j) = mapGet [] j
    rw [if_neg hkj]
  | cons e rest ih =>
    by_cases he : e.1 = k
    · have hej : ¬ (e.1 = j) := fun hc => hkj (he ▸ hc)
      simp only [mapSet, he, if_true, mapGet, hkj, if_false, hej]
    · simp only [mapSet, he, if_false, mapGet, ih]

theorem mapSet_keys_subset {β : Type} (m : List (String × β)) (k : String) (v : β) :
    ∀ x ∈ (mapSet m k v).map Prod.fst, x = k ∨ x ∈ m.map Prod.fst := by
  induction m with
  | nil =>
    intro x hx
    simp only [mapSet, List.map_cons, List.map_nil, List.mem_singleton] at hx
    exact Or.inl hx
  | cons e rest ih =>
    intro x hx
    by_cases he : e.1 = k
    · simp only [mapSet, he, if_true, List.map_cons, List.mem_cons] at hx
      rcases hx with h1 | h1
      · exact Or.inl h1
      · exact Or.inr (by simp only [List.map_cons, List.mem_cons]; exact Or.inr h1)
    · simp only [mapSet, he, if_false, List.map_cons, List.mem_cons] at hx
      rcases hx with h1 | h1
      · exact Or.inr (by simp only [List.map_cons, List.mem_cons]; exact Or.inl h1)
      · rcases ih x h1 with h2 | h2
        · exact Or.inl h2
        · exact Or.inr (by simp only [List.map_cons, List.mem_cons]; exact Or.inr h2)

theorem mapSet_keys_nodup {β : Type} (m : List (String × β)) (k : String) (v : β)
    (h : (m.map Prod.fst).Nodup) : ((mapSet m k v).map Prod.fst).Nodup := by
  induction m with
  | nil => simp [mapSet]
  | cons e rest ih =>
    simp only [List.map_cons, List.nodup_cons] at h
    by_cases he : e.1 = k
    · simp only [mapSet, he, if_true, List.map_cons, List.nodup_cons]
      exact ⟨he ▸ h.1, h.2⟩
    · have htail := ih h.2
      simp only [mapSet, he, if_false, List.map_cons, List.nodup_cons]
      refine ⟨?_, htail⟩
      intro hmem
      rcases mapSet_keys_subset rest k v e.1 hmem with h2 | h2
      · exact he h2
      · exact h.1 h2

theorem filter_key_eq_nil {β : Type} (m : List (String × β)) (k : String)
    (h : k ∉ m.map Prod.fst) : m.filter (fun r => r.1 == k) = [] := by
  induction m with
  | nil => rfl
  | cons e rest ih =>
    simp only [List.map_cons, List.mem_cons, not_or] at h
    have he : (e.1 == k) = false := by
      simp only [beq_eq_false_iff_ne, ne_eq]
      exact fun hc => h.1 hc.symm
    simp only [List.filter_cons, he, if_false]
    exact ih h.2

theorem mapSet_filter_singleton {β : Type} (m : List (String × β)) (k : String) (v : β)
    (h : (m.map Prod.fst).Nodup) :
    ((mapSet m k v).filter (fun r => r.1 == k)).length = 1 := by
  induction m with
  | nil => simp [mapSet]
  | cons e rest ih =>
    simp only [List.map_cons, List.nodup_cons] at h
    by_cases he : e.1 = k
    · have hrest : rest.filter (fun r => r.1 == k) = [] :=
        filter_key_eq_nil rest k (he ▸ h.1)
      simp [mapSet, he, List.filter_cons, hrest]
    · have hne : (e.1 == k) = false := by
        simp only [beq_eq_false_iff_ne, ne_eq]
        exact he
      simp only [mapSet, he, if_false, List.filter_cons, hne]
      exact ih h.2

theorem onConnectionUpdate_timers (s : EngineState) (u : ConnectionUpdate) :
    (onConnectionUpdate s u).reconnectTimers =
      if u.connection == some "close" &&
          u.lastDisconnectStatusCode != some DisconnectReasonLoggedOut then
        s.reconnectTimers ++ [3000]
      else s.reconnectTimers := by
  unfold onConnectionUpdate
  rcases u with ⟨conn, code, qr⟩
  rcases qr with _ | raw <;>
    simp only [] <;>
    by_cases hopen : conn = some "open" <;>
    by_cases hclose : conn = some "close" <;>
    by_cases hcode : code = some DisconnectReasonLoggedOut <;>
    simp_all [Bool.and_eq_true]

theorem foldl_onConnectionUpdate_timer_count (us : List ConnectionUpdate)
    (s : EngineState) :
    (us.foldl onConnectionUpdate s).reconnectTimers.length =
      s.reconnectTimers.length + nonLogoutCloseCount us := by
  induction us generalizing s with
  | nil => simp [nonLogoutCloseCount]
  | cons u rest ih =>
    rw [List.foldl_cons, ih]
    rw [show (onConnectionUpdate s u).reconnectTimers.length =
        s.reconnectTimers.length +
          (if u.connection == some "close" &&
              u.lastDisconnectStatusCode != some DisconnectReasonLoggedOut
            then 1 else 0) from by
      rw [onConnectionUpdate_timers]
      split <;> simp]
    unfold nonLogoutCloseCount
    rw [List.filter_cons]
    split <;> (simp_all; try omega)

/-- C1: the source has no guard against duplicate close events: delivering
the same non-logout connection-closed event twice schedules two 3-second
reconnect timers, so two reconnection attempts become pending for one
physical drop (in general, one timer is stacked per delivered close event). -/
theorem duplicate_close_stacks_two_timers :
    (onConnectionUpdate (onConnectionUpdate initEngineState closeEvent428)
      closeEvent428).reconnectTimers = [3000, 3000] ∧
    nonLogoutCloseCount [closeEvent428, closeEvent428] = 2 := by
  exact ⟨rfl, rfl⟩

/-- C7 counterexample: in the src/index.js variant a disconnect request
arriving while connected issues logout and clears the in-memory state, but
schedules no re-establishment at all, leaving the service idle — refuting
the claim that every connected-state disconnect immediately re-attempts
session establishment. -/
theorem disconnect_index_schedules_no_reconnect :
    (disconnectHandler_index true ⟨"connected", none, []⟩ false).scheduledConnectDelays
        = [] ∧
    (disconnectHandler_index true ⟨"connected", none, []⟩ false).logoutCalled = true ∧
    (disconnectHandler_index true ⟨"connected", none, []⟩ false).stateAfter.status
        = "disconnected" := by
  exact ⟨rfl, rfl, rfl⟩

/-- C7 (amended): in the src/unnamed/part_000 variant a disconnect request
arriving while connected issues logout to the active session, clears the
in-memory state (status disconnected, qr artifact cleared, local session
artifacts deleted) and schedules exactly one re-establishment attempt after
a 1-second delay; the src/index.js variant performs the same logout and
cleanup but schedules no re-establishment. -/
theorem disconnect_logout_cleanup_reconnect (s : EngineState)
    (h : s.status = "connected") :
    (disconnectHandler_p0 true s false).logoutCalled = true ∧
    (disconnectHandler_p0 true s false).stateAfter.status = "disconnected" ∧
    (disconnectHandler_p0 true s false).stateAfter.qrCode = none ∧
    (disconnectHandler_p0 true s false).sessionArtifactsDeleted = true ∧
    (disconnectHandler_p0 true s false).scheduledConnectDelays = [1000] ∧
    (disconnectHandler_index true s false).logoutCalled = true ∧
    (disconnectHandler_index true s false).stateAfter.status = "disconnected" ∧
    (disconnectHandler_index true s false).scheduledConnectDelays = [] := by
  simp [disconnectHandler_p0, disconnectHandler_index, cleanupState, h]

/-- C7 witness: the amended disconnect theorem applied to a concrete
connected state. -/
theorem disconnect_logout_cleanup_reconnect_witness :
    (disconnectHandler_p0 true ⟨"connected", none, []⟩ false).scheduledConnectDelays
        = [1000] ∧
    (disconnectHandler_p0 true ⟨"connected", none, []⟩ false).logoutCalled = true := by
  have h := disconnect_logout_cleanup_reconnect ⟨"connected", none, []⟩ rfl
  exact ⟨h.2.2.2.2.1, h.1⟩

theorem sendWebhook_p0_ok (st : Nat) :
    sendWebhook_p0 (AxiosOutcome.ok st) = ⟨1, decide (400 ≤ st), none⟩ := by
  by_cases h5 : st < 500
  · by_cases h4 : 400 ≤ st
    · simp [sendWebhook_p0, h5, h4]
    · simp [sendWebhook_p0, h5, h4]
  · have h4 : 400 ≤ st := by omega
    simp [sendWebhook_p0, h5, h4]

theorem sendWebhook_index_ok (st : Nat) :
    sendWebhook_index (AxiosOutcome.ok st) =
      ⟨1, !decide (200 ≤ st ∧ st < 300), none⟩ := by
  by_cases h2 : 200 ≤ st ∧ st < 300 <;> simp [sendWebhook_index, h2]

/-- C6: in both engine variants every webhook delivery makes exactly one
HTTP POST with a network timeout between 8 and 10 seconds; any HTTP status
at or above 400 and any network failure is caught and logged, and nothing
is ever thrown back to the caller, so the calling flow always completes. -/
theorem webhook_single_attempt_fire_and_forget (outcome : AxiosOutcome) :
    (sendWebhook_p0 outcome).attempts = 1 ∧
    (sendWebhook_p0 outcome).thrownToCaller = none ∧
    (sendWebhook_p0 outcome).loggedFailure = isDeliveryFailure outcome ∧
    (sendWebhook_index outcome).attempts = 1 ∧
    (sendWebhook_index outcome).thrownToCaller = none ∧
    (isDeliveryFailure outcome = true →
      (sendWebhook_index outcome).loggedFailure = true) ∧
    8000 ≤ webhookTimeoutMs_p0 ∧ webhookTimeoutMs_p0 ≤ 10000 ∧
    8000 ≤ webhookTimeoutMs_index ∧ webhookTimeoutMs_index ≤ 10000 := by
  rcases outcome with st | m
  · refine ⟨?_, ?_, ?_, ?_, ?_, ?_, by decide, by decide, by decide, by decide⟩
    · rw [sendWebhook_p0_ok]
    · rw [sendWebhook_p0_ok]
    · rw [sendWebhook_p0_ok]
      simp [isDeliveryFailure]
    · rw [sendWebhook_index_ok]
    · rw [sendWebhook_index_ok]
    · intro h
      rw [sendWebhook_index_ok]
      have h4 : 400 ≤ st := by simpa [isDeliveryFailure] using h
      have hno : ¬ (200 ≤ st ∧ st < 300) := by omega
      simp [hno]
  · exact ⟨rfl, rfl, rfl, rfl, rfl, fun _ => rfl, by decide, by decide, by decide, by decide⟩

/-- C6 witness: the webhook theorem applied to a concrete unreachable
endpoint and to a concrete 404 response. -/
theorem webhook_single_attempt_fire_and_forget_witness :
    (sendWebhook_index (AxiosOutcome.networkError "ECONNREFUSED")).loggedFailure = true ∧
    (sendWebhook_index (AxiosOutcome.networkError "ECONNREFUSED")).thrownToCaller = none ∧
    (sendWebhook_p0 (AxiosOutcome.ok 404)).loggedFailure = true := by
  have h1 := webhook_single_attempt_fire_and_forget (AxiosOutcome.networkError "ECONNREFUSED")
  have h2 := webhook_single_attempt_fire_and_forget (AxiosOutcome.ok 404)
  exact ⟨h1.2.2.2.2.2.1 rfl, h1.2.2.2.2.1, by rw [h2.2.2.1]; rfl⟩

theorem appendMessage_eq (buf : List MessageData) (m : MessageData)
    (hb : buf.length ≤ 50) :
    appendMessage buf m = (buf ++ [m]).drop (buf.length + 1 - 50) := by
  unfold appendMessage
  by_cases hlt : 50 < (buf ++ [m]).length
  · rw [if_pos hlt]
    simp only [List.length_append, List.length_cons, List.length_nil] at hlt
    have h1 : buf.length + 1 - 50 = 1 := by omega
    rw [h1, List.drop_one]
  · rw [if_neg hlt]
    simp only [List.length_append, List.length_cons, List.length_nil] at hlt
    have h0 : buf.length + 1 - 50 = 0 := by omega
    rw [h0, List.drop_zero]

theorem appendMessage_length_le (buf : List MessageData) (m : MessageData)
    (hb : buf.length ≤ 50) : (appendMessage buf m).length ≤ 50 := by
  rw [appendMessage_eq buf m hb, List.length_drop]
  simp only [List.length_append, List.length_cons, List.length_nil]
  omega

theorem drop_lastN_append (xs ys : List MessageData) (k : Nat)
    (hk : k ≤ xs.length) (hc : k + 50 ≤ xs.length + ys.length ∨ k = 0) :
    (xs.drop k ++ ys).drop ((xs.drop k ++ ys).length - 50) =
      (xs ++ ys).drop ((xs ++ ys).length - 50) := by
  have hlen : (xs.drop k ++ ys).length = xs.length - k + ys.length := by
    rw [List.length_append, List.length_drop]
  rw [hlen, ← List.drop_append_of_le_length hk, List.drop_drop, List.length_append]
  congr 1
  omega

theorem foldl_appendMessage_eq (ms : List MessageData) (buf : List MessageData)
    (hb : buf.length ≤ 50) :
    ms.foldl appendMessage buf = (buf ++ ms).drop ((buf ++ ms).length - 50) := by
  induction ms generalizing buf with
  | nil =>
    simp only [List.foldl_nil, List.append_nil]
    rw [Nat.sub_eq_zero_of_le hb, List.drop_zero]
  | cons m rest ih =>
    rw [List.foldl_cons, ih (appendMessage buf m) (appendMessage_length_le buf m hb)]
    rw [appendMessage_eq buf m hb]
    have hk : buf.length + 1 - 50 ≤ (buf ++ [m]).length := by
      simp only [List.length_append, List.length_cons, List.length_nil]
      omega
    have hc : (buf.length + 1 - 50) + 50 ≤ (buf ++ [m]).length + rest.length ∨
        buf.length + 1 - 50 = 0 := by
      simp only [List.length_append, List.length_cons, List.length_nil]
      omega
    rw [drop_lastN_append (buf ++ [m]) rest (buf.length + 1 - 50) hk hc]
    simp only [List.append_assoc, List.singleton_append]

/-- C3 (amended): for every sequence of appended records the buffer holds
the last min(N, 50) of the N appended records in arrival order, and a read
with limit L at least 1 returns exactly the last min(N, 50, L) records in
arrival order — in particular all N records whenever N is at most both L
and the capacity 50. -/
theorem history_buffer_fifo (ms : List MessageData) (limit : Nat)
    (h : 1 ≤ limit) :
    (ms.foldl appendMessage []).length = min ms.length 50 ∧
    ms.foldl appendMessage [] = ms.drop (ms.length - 50) ∧
    recentMessages (ms.foldl appendMessage []) limit =
      ms.drop (ms.length - min 50 limit) ∧
    (ms.length ≤ limit → ms.length ≤ 50 →
      recentMessages (ms.foldl appendMessage []) limit = ms) := by
  have hfold : ms.foldl appendMessage [] = ms.drop (ms.length - 50) := by
    have hf := foldl_appendMessage_eq ms [] (by simp)
    simpa using hf
  have hneg : (-(limit : Int)) < 0 := by omega
  have hrecent : recentMessages (ms.foldl appendMessage []) limit =
      (ms.foldl appendMessage []).drop
        ((ms.foldl appendMessage []).length - limit) := by
    unfold recentMessages jsSlice
    rw [if_pos hneg]
    congr 1
    omega
  refine ⟨?_, hfold, ?_, ?_⟩
  · rw [hfold, List.length_drop]
    omega
  · rw [hrecent, hfold, List.length_drop, List.drop_drop]
    congr 1
    omega
  · intro h1 h2
    rw [hrecent, hfold]
    have e1 : ms.length - 50 = 0 := by omega
    rw [e1, List.drop_zero]
    have e3 : ms.length - limit = 0 := by omega
    rw [e3, List.drop_zero]

/-- C3 witness: the buffer theorem applied to a concrete one-record
append with the default limit 20. -/
theorem history_buffer_fifo_witness :
    [MessageData.mk "A" "p" "hi" 1 false].foldl appendMessage [] =
      [MessageData.mk "A" "p" "hi" 1 false] ∧
    recentMessages ([MessageData.mk "A" "p" "hi" 1 false].foldl appendMessage []) 20 =
      [MessageData.mk "A" "p" "hi" 1 false] := by
  have h := history_buffer_fifo [MessageData.mk "A" "p" "hi" 1 false] 20 (by decide)
  exact ⟨h.2.1.trans (by decide), h.2.2.2 (by decide) (by decide)⟩

set_option maxRecDepth 16000 in
/-- C3 counterexample: after appending N = 51 records, a read with
limit = 51 returns the 50 records the capped buffer holds, not
min(N, limit) = 51 records as the claim states. -/
theorem recent_above_capacity_counterexample :
    (recentMessages (((List.range 51).map mkMsgN).foldl appendMessage []) 51).length
        = 50 ∧
    ¬ ((recentMessages (((List.range 51).map mkMsgN).foldl appendMessage []) 51).length
        = min ((List.range 51).map mkMsgN).length 51) := by
  refine ⟨by decide, by decide⟩

theorem processEvents_getSession (es : List StreamEvent) (s : EngineFull) :
    getSession (processEvents s es).db "default" =
      match lastCreds es with
      | some (c, k) => some (mkAuthBlob c k)
      | none => getSession s.db "default" := by
  induction es generalizing s with
  | nil => rfl
  | cons e rest ih =>
    show getSession (processEvents (processEvent s e) rest).db "default" = _
    rw [ih]
    cases hrest : lastCreds rest with
    | some p => simp [lastCreds, hrest]
    | none =>
      cases e with
      | credsUpdate c k =>
        simp [lastCreds, hrest, processEvent, getSession, saveSession,
          mapGet_mapSet_self]
      | connectionUpdate u => simp [lastCreds, hrest, processEvent]
      | otherEvent => simp [lastCreds, hrest, processEvent]

/-- C2 (amended): the creds.update handler reads the full current
credential blob (creds plus all keys) and persists it via the saveSession
upsert under the fixed session id, and with stream events processed
sequentially (each write awaited before the next event) the persisted
snapshot always equals the blob of the last credentials-changed event —
never older; however, a persistence failure is not caught or logged by the
handler: it propagates out of the handler. -/
theorem creds_snapshot_freshness (es : List StreamEvent) (c k : String)
    (h : lastCreds es = some (c, k)) :
    getSession (processEvents ⟨initEngineState, []⟩ es).db "default" =
      some (mkAuthBlob c k) := by
  rw [processEvents_getSession, h]

/-- C2 witness: the freshness theorem applied to a concrete two-event
stream whose credsUpdate event carries blob (c1, k1). -/
theorem creds_snapshot_freshness_witness :
    getSession (processEvents ⟨initEngineState, []⟩
      [StreamEvent.credsUpdate "c1" "k1", StreamEvent.otherEvent]).db "default" =
      some (mkAuthBlob "c1" "k1") :=
  creds_snapshot_freshness
    [StreamEvent.credsUpdate "c1" "k1", StreamEvent.otherEvent] "c1" "k1" rfl

/-- C2 counterexample: with a failing persistence write the creds.update
handler of src/index.js produces no log line and propagates the error out
of the handler (the handler body has no try/catch), refuting the claim
that a persistence failure is logged and does not terminate the session. -/
theorem creds_persistence_failure_uncaught :
    credsUpdateHandler "c" "k" (fun _ _ => Except.error "db unavailable") =
      ([], Except.error "db unavailable") := rfl

/-- C4: for every POST /send request, a non-connected session or a missing
required field yields HTTP 400 with no webhook; a lookup reporting that the
peer does not exist (empty result set or exists false) yields HTTP 400 with
the invalid-number error and no webhook; and a successful send yields a
response carrying the returned message id together with exactly one
message_sent webhook event carrying that same id. -/
theorem send_endpoint_contract (status : String) (number message : Option String)
    (now : Nat) (lk : Except Unit (List WaEntry))
    (snd : String → String → Except Unit String) :
    (status ≠ "connected" →
      (sendHandler status number message now lk snd).1.status = 400 ∧
      (sendHandler status number message now lk snd).2 = []) ∧
    ((jsFalsyStr number || jsFalsyStr message) = true →
      (sendHandler status number message now lk snd).1.status = 400 ∧
      (sendHandler status number message now lk snd).2 = []) ∧
    (status = "connected" → (jsFalsyStr number || jsFalsyStr message) = false →
      lk = Except.ok [] →
      sendHandler status number message now lk snd =
        (⟨400, [("error", JValue.s "Invalid number")]⟩, [])) ∧
    (status = "connected" → (jsFalsyStr number || jsFalsyStr message) = false →
      ∀ r rest, lk = Except.ok (r :: rest) → r.exists_ = false →
      sendHandler status number message now lk snd =
        (⟨400, [("error", JValue.s "Invalid number")]⟩, [])) ∧
    (status = "connected" → (jsFalsyStr number || jsFalsyStr message) = false →
      ∀ r rest mid, lk = Except.ok (r :: rest) → r.exists_ = true →
      snd r.jid (message.getD "") = Except.ok mid →
      sendHandler status number message now lk snd =
        (⟨200, [("success", JValue.b true), ("messageId", JValue.s mid)]⟩,
         [⟨"message_sent",
           [("phone_number", JValue.s (number.getD "")),
            ("message_id", JValue.s mid),
            ("message_content", JValue.s (message.getD "")),
            ("timestamp", JValue.n now)]⟩])) := by
  refine ⟨?_, ?_, ?_, ?_, ?_⟩
  · intro h
    simp [sendHandler, h]
  · intro h
    by_cases hs : status = "connected"
    · simp [sendHandler, hs, h]
    · simp [sendHandler, hs]
  · intro hs h hlk
    subst hs
    subst hlk
    simp [sendHandler, h]
  · intro hs h r rest hlk hex
    subst hs
    subst hlk
    simp [sendHandler, h, hex]
  · intro hs h r rest mid hlk hex hsend
    subst hs
    subst hlk
    simp [sendHandler, h, hex, hsend]

/-- C4 witness: the send-endpoint theorem applied to a connected session
where the lookup reports the peer as non-existent, and to a successful
send returning message id ABC123. -/
theorem send_endpoint_contract_witness :
    sendHandler "connected" (some "15551234567") (some "hi") 7
        (Except.ok [⟨false, "15551234567@s.whatsapp.net"⟩])
        (fun _ _ => Except.ok "ABC123") =
      (⟨400, [("error", JValue.s "Invalid number")]⟩, []) ∧
    sendHandler "connected" (some "15551234567") (some "hi") 7
        (Except.ok [⟨true, "15551234567@s.whatsapp.net"⟩])
        (fun _ _ => Except.ok "ABC123") =
      (⟨200, [("success", JValue.b true), ("messageId", JValue.s "ABC123")]⟩,
       [⟨"message_sent",
         [("phone_number", JValue.s "15551234567"),
          ("message_id", JValue.s "ABC123"),
          ("message_content", JValue.s "hi"),
          ("timestamp", JValue.n 7)]⟩]) := by
  have h1 := send_endpoint_contract "connected" (some "15551234567") (some "hi") 7
    (Except.ok [⟨false, "15551234567@s.whatsapp.net"⟩]) (fun _ _ => Except.ok "ABC123")
  have h2 := send_endpoint_contract "connected" (some "15551234567") (some "hi") 7
    (Except.ok [⟨true, "15551234567@s.whatsapp.net"⟩]) (fun _ _ => Except.ok "ABC123")
  exact ⟨h1.2.2.2.1 rfl rfl ⟨false, "15551234567@s.whatsapp.net"⟩ [] rfl rfl,
    h2.2.2.2.2 rfl rfl ⟨true, "15551234567@s.whatsapp.net"⟩ [] "ABC123" rfl rfl rfl⟩

/-- C10: for every GET /check/:number request made while connected, a
lookup resolving with no results answers HTTP 200 with exists false and
the fixed invalid-format message (not a 4xx or 5xx); every resolved lookup
answers 200, and only a thrown lookup answers HTTP 500. -/
theorem check_endpoint_contract (status number : String)
    (lk : Except Unit (List WaEntry)) (h : status = "connected") :
    (lk = Except.ok [] →
      checkHandler status number lk =
        ⟨200, [("exists", JValue.b false),
               ("message", JValue.s "Invalid number format")]⟩) ∧
    (∀ results, lk = Except.ok results →
      (checkHandler status number lk).status = 200) ∧
    (∀ e, lk = Except.error e →
      (checkHandler status number lk).status = 500) := by
  subst h
  refine ⟨?_, ?_, ?_⟩
  · intro hlk
    subst hlk
    rfl
  · intro results hlk
    subst hlk
    rcases results with _ | ⟨r, rest⟩ <;> rfl
  · intro e hlk
    subst hlk
    rfl

/-- C10 witness: the check-endpoint theorem applied to an un-parseable
number (empty lookup result) and to a thrown lookup. -/
theorem check_endpoint_contract_witness :
    checkHandler "connected" "abc" (Except.ok []) =
      ⟨200, [("exists", JValue.b false),
             ("message", JValue.s "Invalid number format")]⟩ ∧
    (checkHandler "connected" "abc" (Except.error ())).status = 500 := by
  have h1 := check_endpoint_contract "connected" "abc" (Except.ok []) rfl
  have h2 := check_endpoint_contract "connected" "abc" (Except.error ()) rfl
  exact ⟨h1.1 rfl, h2.2.2 () rfl⟩

/-- C5: for every notify upsert event, the derived record (plain text
body, else the fixed placeholder) is archived under the full peer key in
both archive maps and broadcast exactly once; the message_received webhook
event is handed over exactly once if and only if the record has fromMe
false. -/
theorem upsert_archive_broadcast_webhook (st : ArchiveState) (ev : UpsertEvent)
    (now : Nat) (message : UpsertMessage)
    (h1 : ev.messages.head? = some message) (h2 : ev.type_ = "notify") :
    (messagesUpsertHandler st ev now).2.1 = [mkMessageData message now] ∧
    mapGet (messagesUpsertHandler st ev now).1.messages message.keyRemoteJid =
      some (appendMessage ((mapGet st.messages message.keyRemoteJid).getD [])
        (mkMessageData message now)) ∧
    mapGet (messagesUpsertHandler st ev now).1.conversations message.keyRemoteJid =
      some (((mapGet st.conversations message.keyRemoteJid).getD [])
        ++ [mkMessageData message now]) ∧
    (messagesUpsertHandler st ev now).2.2 =
      (if (mkMessageData message now).fromMe then []
       else [mkReceivedWebhook message now]) ∧
    ((mkMessageData message now).fromMe = false ↔
      (messagesUpsertHandler st ev now).2.2.length = 1) ∧
    (message.conversation = none → message.extendedText = none →
      (mkMessageData message now).message = "[Media/Other]") := by
  have hh : messagesUpsertHandler st ev now =
      (⟨mapSet st.messages message.keyRemoteJid
          (appendMessage ((mapGet st.messages message.keyRemoteJid).getD [])
            (mkMessageData message now)),
        mapSet st.conversations message.keyRemoteJid
          (((mapGet st.conversations message.keyRemoteJid).getD [])
            ++ [mkMessageData message now])⟩,
       [mkMessageData message now],
       if (mkMessageData message now).fromMe then []
       else [mkReceivedWebhook message now]) := by
    unfold messagesUpsertHandler
    rw [h1, h2]
    simp
  rw [hh]
  refine ⟨rfl, mapGet_mapSet_self _ _ _, mapGet_mapSet_self _ _ _, rfl, ?_, ?_⟩
  · cases hfm : (mkMessageData message now).fromMe <;> simp [hfm]
  · intro hc he
    simp [mkMessageData, jsOrStr, hc, he]

/-- C5 witness: the upsert theorem applied to the concrete scenario of an
incoming text from peer number 15550000000 with fromMe false: it is
archived under the full jid, broadcast once, and the message_received
webhook is handed over exactly once. -/
theorem upsert_archive_broadcast_webhook_witness :
    (messagesUpsertHandler ⟨[], []⟩
      ⟨[⟨"15550000000@s.whatsapp.net", "MSG1", some false, some "hello", none,
         some 1700⟩], "notify"⟩ 5).2.2.length = 1 ∧
    (messagesUpsertHandler ⟨[], []⟩
      ⟨[⟨"15550000000@s.whatsapp.net", "MSG1", some false, some "hello", none,
         some 1700⟩], "notify"⟩ 5).2.1 =
      [mkMessageData ⟨"15550000000@s.whatsapp.net", "MSG1", some false,
        some "hello", none, some 1700⟩ 5] := by
  have h := upsert_archive_broadcast_webhook ⟨[], []⟩
    ⟨[⟨"15550000000@s.whatsapp.net", "MSG1", some false, some "hello", none,
       some 1700⟩], "notify"⟩ 5
    ⟨"15550000000@s.whatsapp.net", "MSG1", some false, some "hello", none,
     some 1700⟩ rfl rfl
  exact ⟨h.2.2.2.2.1.mp rfl, h.1⟩

theorem buildConversations_eq (entries : List (String × List MessageData))
    (limit count now : Nat) :
    buildConversations entries limit count now =
      (((entries.filter (fun e => !jidIsGroup e.1)).take (limit - count)).map
        (fun e => mkConvSummary now e.1 e.2)) := by
  induction entries generalizing count with
  | nil => simp [buildConversations]
  | cons e rest ih =>
    rcases e with ⟨jid, msgs⟩
    by_cases hlim : limit ≤ count
    · rw [Nat.sub_eq_zero_of_le hlim]
      simp [buildConversations, hlim]
    · by_cases hg : jidIsGroup jid
      · simp [buildConversations, hlim, hg, List.filter_cons, ih]
      · obtain ⟨d, hd⟩ : ∃ d, limit - count = d + 1 :=
          ⟨limit - count - 1, by omega⟩
        have hd2 : limit - (count + 1) = d := by omega
        simp only [buildConversations, if_neg hlim, hg, if_false,
          List.filter_cons]
        rw [ih (count + 1), hd2]
        simp [hg, hd, List.take_succ_cons]

/-- C8: for every set of known peers and every limit, the conversations
listing returns at most limit summaries, iterates the peers in the order
they were first seen (it equals the group-free entries in map order,
truncated to limit), and never includes a peer whose identifier carries
the group-suffix marker. -/
theorem conversations_listing (entries : List (String × List MessageData))
    (limit now : Nat) :
    buildConversations entries limit 0 now =
      (((entries.filter (fun e => !jidIsGroup e.1)).take limit).map
        (fun e => mkConvSummary now e.1 e.2)) ∧
    (buildConversations entries limit 0 now).length ≤ limit ∧
    (buildConversations entries limit 0 now).all
      (fun c => !jidIsGroup c.id) = true := by
  have he := buildConversations_eq entries limit 0 now
  rw [Nat.sub_zero] at he
  refine ⟨he, ?_, ?_⟩
  · rw [he, List.length_map]
    exact List.length_take_le _ _
  · rw [he, List.all_eq_true]
    intro c hc
    rw [List.mem_map] at hc
    obtain ⟨e, he2, hrfl⟩ := hc
    have he3 : e ∈ entries.filter (fun e => !jidIsGroup e.1) :=
      List.take_subset _ _ he2
    rw [List.mem_filter] at he3
    rw [← hrfl]
    exact he3.2

/-- C9: the credential store treats absence as a normal outcome (getSession
of an unknown session identifier returns none, not an error) and saveSession
is an upsert keyed on the session identifier: a row is created on first save
and updated in place on later saves, so a table whose session_id column is
unique keeps exactly one row for the saved identifier and other rows are
untouched. -/
theorem credential_store_upsert (db : List (String × String))
    (sessionId otherId data : String)
    (hn : (db.map Prod.fst).Nodup) (hne : otherId ≠ sessionId) :
    getSession [] sessionId = none ∧
    getSession (saveSession db sessionId data) sessionId = some data ∧
    getSession (saveSession db sessionId data) otherId = getSession db otherId ∧
    ((saveSession db sessionId data).map Prod.fst).Nodup ∧
    ((saveSession db sessionId data).filter (fun r => r.1 == sessionId)).length = 1 := by
  refine ⟨rfl, mapGet_mapSet_self db sessionId data,
    mapGet_mapSet_other db sessionId otherId data hne,
    mapSet_keys_nodup db sessionId data hn,
    mapSet_filter_singleton db sessionId data hn⟩

/-- C9 witness: the credential-store theorem instantiated on a concrete
one-row table. -/
theorem credential_store_upsert_witness :
    getSession (saveSession [("a", "1")] "default" "blob") "default" = some "blob" ∧
    ((saveSession [("a", "1")] "default" "blob").filter
      (fun r => r.1 == "default")).length = 1 := by
  have h := credential_store_upsert [("a", "1")] "default" "a" "blob"
    (by decide) (by decide)
  exact ⟨h.2.1, h.2.2.2.2⟩

end WAEngine
